import Mathlib

/-!
Verification of the PopFrame model lifecycle and caching orchestration subsystem.

The development shallowly embeds the orchestration code:
  - `app/common/models/popframe_models/popframe_models_service.py`
  - `app/common/storage/models/pop_frame_caching_service.py`
  - `app/broker/handlers/project_handler.py`
  - `app/routers/router_population.py` / `app/routers/router_territory.py`
  - `app/common/api_handler/api_handler.py`

External collaborators (the upstream HTTP fetchers of `PopFrameModelApiService`,
the popframe modeling library, the geoserver layer store backend) are modelled as
an abstract environment `Env`; the on-disk pickle cache and the geoserver layer
store are the mutable state `St`; side effects that the claims talk about
(fetches, cache writes, deletes, uploads, log lines) are recorded in a trace of
events `Ev`.  Every pipeline runs in the `Pipe` monad: state in, result or
error out, state and emitted trace out.
-/

set_option autoImplicit false

/-- Derived-layer types published to the geoserver store (spec section 3). -/
inductive LayerType where
  | agglomerations
  | cities
  deriving Repr, DecidableEq

/-- Extra payload attached to an `http_exception` by its call sites: the
`available_files` entry of `_detail` (write failures in the caching service)
and the `filepath` passed as `_input` (read failures). -/
structure Detail where
  availableFiles : Option (List Int) := none
  filepath : Option String := none
  deriving Repr, DecidableEq

/-- Errors that can propagate through the orchestration code: `http` mirrors
the repository's `http_exception` objects, `keyError` the pandas `KeyError`
raised by `.loc` slicing with missing labels, `ext` any other python
exception coming from a collaborator or the runtime. -/
inductive Err where
  | http (status : Nat) (msg : String) (detail : Detail)
  | keyError (missing : List Int)
  | ext (code : Nat)
  deriving Repr, DecidableEq

/-- Modelled from the spec: `app/common/exceptions/http_exception_wrapper.py`
is not under src/ (only its call sites are).  Per spec section 7 the wrapper
builds an error object carrying the HTTP-equivalent status, a message and the
diagnostic details supplied by the call site. -/
def http_exception (status : Nat) (msg : String) (detail : Detail) : Err :=
  Err.http status msg detail

/-- A GeoDataFrame of one geometry record (region borders): a CRS tag and an
opaque geometry payload. -/
structure Gdf where
  crs : Int
  geom : Nat
  deriving Repr, DecidableEq

/-- `GeoDataFrame.to_crs`: reprojection, abstracted as retagging the CRS (the
payload stands for the coordinates under the frame's CRS tag). -/
def Gdf.to_crs (c : Int) (g : Gdf) : Gdf :=
  { crs := c, geom := g.geom }

/-- One row of the towns frame: its current index label and the value of its
`original_index` column (meaningful when the frame has that column). -/
structure FRow where
  label : Int
  orig : Int
  deriving Repr, DecidableEq

/-- The towns GeoDataFrame: CRS tag, whether the `original_index` column is
present, and the rows in order. -/
structure Frame where
  crs : Int
  hasOrig : Bool
  rows : List FRow
  deriving Repr, DecidableEq

/-- `GeoDataFrame.to_crs` for the towns frame. -/
def Frame.to_crs (c : Int) (t : Frame) : Frame :=
  { crs := c, hasOrig := t.hasOrig, rows := t.rows }

/-- The index of a towns frame, in row order (`towns.index`). -/
def townsIndex (t : Frame) : List Int :=
  t.rows.map (fun r => r.label)

/-- The raw towns layer returned by `get_tf_cities`: index labels and, when
the `territory_id` column is present, its values aligned with the labels. -/
structure Cities where
  labels : List Int
  tid : Option (List Int)
  deriving Repr, DecidableEq

/-- The population DataFrame returned by
`get_regional_scenario_territories_population`: its `territory_id` column. -/
structure Pop where
  tids : List Int
  deriving Repr, DecidableEq

/-- An accessibility matrix (a pandas DataFrame): row index labels, column
labels, and the CRS tag a reprojection would attach.  A pandas DataFrame
carries no CRS, so matrices entering the pipeline always have `crs = none`. -/
structure Mx where
  rows : List Int
  cols : List Int
  crs : Option Int
  deriving Repr, DecidableEq

/-- `matrix.loc[idx, idx]`: if every label of `idx` occurs among both the rows
and the columns, reindex both axes to exactly `idx` in order; otherwise pandas
raises a `KeyError` naming the missing labels. -/
def Mx.locSq (m : Mx) (idx : List Int) : Except Err Mx :=
  let missing := idx.filter (fun i => !(m.rows.contains i && m.cols.contains i))
  if missing.isEmpty then Except.ok { rows := idx, cols := idx, crs := m.crs }
  else Except.error (Err.keyError missing)

/-- The popframe `Region` model object: the three components handed to the
`Region(...)` constructor in `create_model`. -/
structure Region where
  region : Gdf
  towns : Frame
  accessibility_matrix : Mx
  deriving Repr, DecidableEq

/-- The `PopFrameAPIModel` handle pairing a region id with its loaded model. -/
structure PopFrameAPIModel where
  region_id : Int
  region_model : Region
  deriving Repr, DecidableEq

/-- Events recorded while a pipeline runs: collaborator calls, cache writes
and loads, geoserver operations, and log lines. -/
inductive Ev where
  | fetchBase (r : Int)
  | fetchBorders (r : Int)
  | fetchCities (r : Int)
  | fetchPop (scen : Int) (ids : List Int)
  | fetchMatrix (r : Int)
  | cacheWrite (r : Int)
  | uploadInd (r : Int) (scen : Int)
  | delLayers (r : Int)
  | saveLayer (r : Int) (t : LayerType)
  | loadModel (r : Int)
  | fetchRegions
  | scenarioLookup (sid : Int)
  | territoryFetch (pid : Int)
  | indicatorPost (sid : Int)
  | logErr
  | logInfo
  deriving Repr, DecidableEq

/-- Persistent shared state: the pickle cache directory (one entry per region
id) and the geoserver derived-layer store keyed by region id and layer type. -/
structure St where
  cache : List (Int × Region)
  layers : List (Int × LayerType)
  deriving Repr, DecidableEq

/-- A stateful computation of the orchestration subsystem: it consumes the
state and produces a result or error, the new state, and the emitted trace. -/
def Pipe (α : Type) : Type :=
  St → Except Err α × St × List Ev

def Pipe.pure {α : Type} (a : α) : Pipe α := fun s => (Except.ok a, s, [])

def Pipe.bind {α β : Type} (m : Pipe α) (f : α → Pipe β) : Pipe β := fun s =>
  match m s with
  | (Except.ok a, s1, tr1) =>
    match f a s1 with
    | (r, s2, tr2) => (r, s2, tr1 ++ tr2)
  | (Except.error e, s1, tr1) => (Except.error e, s1, tr1)

instance : Monad Pipe where
  pure := Pipe.pure
  bind := Pipe.bind

theorem Pipe.bind_eq {α β : Type} (m : Pipe α) (f : α → Pipe β) :
    m >>= f = Pipe.bind m f := rfl

theorem Pipe.pure_eq {α : Type} (a : α) : (pure a : Pipe α) = Pipe.pure a := rfl

theorem Pipe.pure_apply {α : Type} (a : α) (s : St) :
    (pure a : Pipe α) s = (Except.ok a, s, []) := rfl

/-- Lift a collaborator call result into `Pipe`, recording the call event. -/
def Pipe.liftE {α : Type} (x : Except Err α) (ev : Ev) : Pipe α :=
  fun s => (x, s, [ev])

/-- Lift a pure fallible computation into `Pipe` (no event). -/
def Pipe.ofExcept {α : Type} (x : Except Err α) : Pipe α :=
  fun s => (x, s, [])

def Pipe.emit (ev : Ev) : Pipe Unit := fun s => (Except.ok (), s, [ev])

def Pipe.fail {α : Type} (e : Err) : Pipe α := fun s => (Except.error e, s, [])

/-- Association lookup in the cache listing (first entry wins). -/
def lookupCache : List (Int × Region) → Int → Option Region
  | [], _ => none
  | (k, v) :: rest, r => if k = r then some v else lookupCache rest r

/-- Overwriting a region's pickle file: the directory afterwards holds exactly
one entry for the region, the new one; other entries are untouched. -/
def upsert (c : List (Int × Region)) (r : Int) (v : Region) : List (Int × Region) :=
  c.filter (fun p => p.1 ≠ r) ++ [(r, v)]

/-- The environment of external collaborators (spec section 6): the upstream
fetchers of `PopFrameModelApiService`, the opaque popframe modeling library
calls, the geoserver backend and the filesystem outcomes.  Booleans and
`Except` results model whether each call succeeds on a given input. -/
structure Env where
  baseScenario : Int → Except Err Int
  regionBorders : Int → Except Err Gdf
  tfCities : Int → Except Err Cities
  scenarioPopulation : Int → List Int → Except Err Pop
  matrixFor : Int → Except Err (List Int × List Int)
  fillLevels : Frame → Frame
  estimateUtm : Gdf → Int
  regionInitOk : Gdf → Frame → Mx → Bool
  uploadInd : Int → Int → Except Err Unit
  delLayersOk : Int → Bool
  saveLayerOk : Int → LayerType → Bool
  regions : Except Err (List Int)
  listCachedOk : Bool
  writeOk : Int → Bool
  loadOk : Int → Bool
  scenStatus : Int → Nat
  scenProject : Int → Option Int
  terrStatus : Int → Nat
  evalScores : Int → List Int
  evalScores2 : Int → List Int
  indPostStatus : Int → Nat

/-- `PopFrameCachingService.check_path`: scans the cache directory for a file
named after the region id; never raises on a missing file. -/
def check_path (region_id : Int) : Pipe Bool := fun s =>
  (Except.ok (s.cache.any (fun p => p.1 == region_id)), s, [])

/-- `PopFrameCachingService.get_available_models`: lists the region ids of
every file in the cache directory (directory listing itself can fail). -/
def get_available_models (env : Env) : Pipe (List Int) := fun s =>
  if env.listCachedOk then (Except.ok (s.cache.map (fun p => p.1)), s, [])
  else (Except.error (Err.ext 1), s, [])

/-- `PopFrameCachingService.cache_model_to_pickle`: writes the pickled model,
overwriting any previous file for the region; on failure it logs and raises an
`http_exception` whose message names the region and whose `_detail` holds the
currently available cached ids (obtained by a further `get_available_models`
call, whose own failure would propagate instead). -/
def cache_model_to_pickle (env : Env) (region_model : Region) (region_id : Int) :
    Pipe Unit := fun s =>
  if env.writeOk region_id then
    (Except.ok (), { s with cache := upsert s.cache region_id region_model },
      [Ev.cacheWrite region_id])
  else if env.listCachedOk then
    (Except.error (http_exception 500
        ("Failed to cache file to pickle " ++ toString region_id)
        { availableFiles := some (s.cache.map (fun p => p.1)) }), s, [Ev.logErr])
  else (Except.error (Err.ext 1), s, [Ev.logErr])

/-- `PopFrameCachingService.load_cached_model`: unpickles the region's file;
when the file is missing or unpickling fails it raises an `http_exception`
whose message names the region and whose `_input` is the file path. -/
def load_cached_model (env : Env) (region_id : Int) : Pipe Region := fun s =>
  match lookupCache s.cache region_id with
  | some m =>
    if env.loadOk region_id then (Except.ok m, s, [Ev.loadModel region_id])
    else (Except.error (http_exception 500
        ("Failed to load file from pickle " ++ toString region_id)
        { filepath := some (toString region_id ++ ".pkl") }), s, [])
  | none => (Except.error (http_exception 500
      ("Failed to load file from pickle " ++ toString region_id)
      { filepath := some (toString region_id ++ ".pkl") }), s, [])

/-- Modelled from the spec: `GeoserverStorage.delete_geoserver_cached_layers`
(file `app/common/storage/geoserver/goserver.py`) is not under src/, only its
callers are; per spec sections 3 and 4.5 it deletes all previously cached
derived layers for the region, both layer types. -/
def delete_geoserver_cached_layers (env : Env) (region_id : Int) : Pipe Unit :=
  fun s =>
    if env.delLayersOk region_id then
      (Except.ok (), { s with layers := s.layers.filter (fun p => p.1 ≠ region_id) },
        [Ev.delLayers region_id])
    else (Except.error (Err.ext 2), s, [])

/-- Modelled from the spec: `GeoserverStorage.save_gdf_to_geoserver` is not
under src/; per spec section 6 (`upload_layer`) it stores one more layer for
the given region id and layer type. -/
def save_gdf_to_geoserver (env : Env) (region_id : Int) (layer_type : LayerType) :
    Pipe Unit := fun s =>
  if env.saveLayerOk region_id layer_type then
    (Except.ok (), { s with layers := s.layers ++ [(region_id, layer_type)] },
      [Ev.saveLayer region_id layer_type])
  else (Except.error (Err.ext 3), s, [])

/-- `validate_region` (`app/common/validators/region_validators.py`): region
143111 is rejected with a 400 `http_exception`; every other id passes. -/
def validate_region (region_id : Int) : Except Err Int :=
  if region_id = 143111 then
    Except.error (http_exception 400 "Region is unavailable" {})
  else Except.ok region_id

/-- Lines 95-97 of `popframe_models_service.py`: when the fetched cities layer
has a `territory_id` column, remember the original index in an
`original_index` column and reindex by `territory_id`. -/
def reindexByTerritoryId (c : Cities) : Frame :=
  match c.tid with
  | some ts =>
    { crs := 4326, hasOrig := true,
      rows := (ts.zip c.labels).map (fun p => { label := p.1, orig := p.2 }) }
  | none =>
    { crs := 4326, hasOrig := false,
      rows := c.labels.map (fun l => { label := l, orig := 0 }) }

/-- Lines 103-108: `pd.merge(cities_gdf, population_data_df, left_index=True,
right_on="territory_id")` (inner join, left key order preserved) immediately
followed by `set_index("territory_id")` and re-wrapping as a GeoDataFrame in
CRS 4326: each city row is kept once per matching population row, indexed by
the shared territory id, carrying its `original_index` column through. -/
def mergePop (c : Frame) (p : Pop) : Frame :=
  { crs := 4326, hasOrig := c.hasOrig,
    rows := c.rows.flatMap (fun row =>
      (p.tids.filter (fun t => t == row.label)).map
        (fun t => { label := t, orig := row.orig })) }

/-- Lines 116-121: when the merged cities frame has an `original_index`
column, join it back onto the filled towns by index (inner join, left key
order) and reindex the towns by `original_index`. -/
def restoreOriginalIndex (cities : Frame) (towns : Frame) : Frame :=
  if cities.hasOrig then
    { crs := 4326, hasOrig := false,
      rows := cities.rows.flatMap (fun cr =>
        (towns.rows.filter (fun tr => tr.label == cr.label)).map
          (fun _ => { label := cr.orig, orig := cr.orig })) }
  else towns

/-- `PopFrameModelsService.create_model` (lines 32-72): estimate a local UTM
CRS from the border geometry, reproject the borders and the towns to it, and
hand them together with the adjacency matrix to the `Region(...)` constructor;
a constructor failure is wrapped into a 500 `http_exception` naming the
region. -/
def create_model (env : Env) (region_borders : Gdf) (towns : Frame) (adj_mx : Mx)
    (region_id : Int) : Except Err Region :=
  let local_crs := env.estimateUtm region_borders
  let b := Gdf.to_crs local_crs region_borders
  let t := Frame.to_crs local_crs towns
  if env.regionInitOk b t adj_mx then
    Except.ok { region := b, towns := t, accessibility_matrix := adj_mx }
  else
    Except.error (http_exception 500
      ("error during PopFrame model initialization with region " ++ toString region_id)
      {})

/-- Lines 83-123 of `calculate_model`, up to (not including) the matrix
slicing: fetch the base regional scenario, validate the region, fetch borders,
fetch and reindex the cities, fetch and join the population, fill levels,
fetch the full-region matrix, and restore the original index.  Returns the
base scenario id, the borders, the final towns frame and the unsliced
matrix. -/
def alignStage (env : Env) (region_id : Int) : Pipe (Int × Gdf × Frame × Mx) := do
  let base_regional_scenario ← Pipe.liftE (env.baseScenario region_id)
    (Ev.fetchBase region_id)
  let _ ← Pipe.ofExcept (validate_region region_id)
  let region_borders ← Pipe.liftE (env.regionBorders region_id)
    (Ev.fetchBorders region_id)
  let cities0 ← Pipe.liftE (env.tfCities region_id) (Ev.fetchCities region_id)
  let cities_gdf := reindexByTerritoryId cities0
  let ids := townsIndex cities_gdf
  let population_data_df ←
    Pipe.liftE (env.scenarioPopulation base_regional_scenario ids)
      (Ev.fetchPop base_regional_scenario ids)
  let cities_gdf := mergePop cities_gdf population_data_df
  let towns := env.fillLevels cities_gdf
  let mxidx ← Pipe.liftE (env.matrixFor region_id) (Ev.fetchMatrix region_id)
  let matrix : Mx := { rows := mxidx.1, cols := mxidx.2, crs := none }
  let towns := restoreOriginalIndex cities_gdf towns
  Pipe.pure (base_regional_scenario, region_borders, towns, matrix)

/-- Line 123: `matrix = matrix.loc[towns.index, towns.index]` applied to the
aligned inputs; the result is exactly what `create_model` is handed. -/
def builderInputs (env : Env) (region_id : Int) : Pipe (Int × Gdf × Frame × Mx) := do
  let pre ← alignStage env region_id
  let matrix ← Pipe.ofExcept (pre.2.2.2.locSq (townsIndex pre.2.2.1))
  Pipe.pure (pre.1, pre.2.1, pre.2.2.1, matrix)

/-- `PopFrameModelsService.calculate_model` (lines 74-165): align the inputs,
build the model, persist it to the pickle cache, upload the agglomeration
status indicators, delete the old geoserver layers, then upload the new
agglomerations and cities layers. -/
def calculate_model (env : Env) (region_id : Int) : Pipe Unit := do
  let pre ← builderInputs env region_id
  let base := pre.1
  let model ← Pipe.ofExcept (create_model env pre.2.1 pre.2.2.1 pre.2.2.2 region_id)
  cache_model_to_pickle env model region_id
  Pipe.liftE (env.uploadInd region_id base) (Ev.uploadInd region_id base)
  delete_geoserver_cached_layers env region_id
  save_gdf_to_geoserver env region_id LayerType.agglomerations
  save_gdf_to_geoserver env region_id LayerType.cities

/-- `PopFrameModelsService.get_model` (lines 297-312): when no cached artifact
exists, run the full `calculate_model` pipeline synchronously; then (in both
cases) load the model from the cache and pair it with the region id. -/
def get_model (env : Env) (region_id : Int) : Pipe PopFrameAPIModel := do
  let cached ← check_path region_id
  let _ ← if !cached then calculate_model env region_id else Pipe.pure ()
  let model ← load_cached_model env region_id
  Pipe.pure { region_id := region_id, region_model := model }

/-- `PopFrameModelsService.get_available_regions` (lines 314-323). -/
def get_available_regions (env : Env) : Pipe (List Int) :=
  get_available_models env

/-- One iteration of the bulk loops (lines 270-274 and 290-295): run
`calculate_model` for the region; any exception is logged and swallowed so the
loop continues with the next region. -/
def calcLogged (env : Env) (region_id : Int) : Pipe Unit := fun s =>
  match calculate_model env region_id s with
  | (Except.ok _, s1, tr) => (Except.ok (), s1, tr)
  | (Except.error _, s1, tr) => (Except.ok (), s1, tr ++ [Ev.logErr])

/-- The `for region_id in ...` loops of both bulk operations. -/
def forRegions (env : Env) : List Int → Pipe Unit
  | [] => Pipe.pure ()
  | r :: rest => do
    calcLogged env r
    forRegions env rest

/-- `PopFrameModelsService.load_and_cache_all_models` (lines 262-274): fetch
every known region id and run the guarded per-region loop over all of them. -/
def load_and_cache_all_models (env : Env) : Pipe Unit := do
  let regions_ids_to_process ← Pipe.liftE env.regions Ev.fetchRegions
  forRegions env regions_ids_to_process

/-- `list(set(all_regions) - set(cached_regions))` on line 286: the known ids
that are not cached, without duplicates. -/
def setDiff (all cached : List Int) : List Int :=
  (all.filter (fun x => !(cached.contains x))).dedup

/-- `PopFrameModelsService.load_and_cache_all_models_on_startup` (lines
276-295): compute the set difference between all known regions and the cached
ones inside a try block; if either listing fails, log and abandon the warmup;
otherwise run the guarded per-region loop over the missing regions only. -/
def load_and_cache_all_models_on_startup (env : Env) : Pipe Unit := fun s =>
  match (do
      let all ← Pipe.liftE env.regions Ev.fetchRegions
      let cached ← get_available_regions env
      Pipe.pure (setDiff all cached) : Pipe (List Int)) s with
  | (Except.error _, s1, tr) => (Except.ok (), s1, tr ++ [Ev.logErr])
  | (Except.ok rs, s1, tr) =>
    match forRegions env rs s1 with
    | (res, s2, tr2) => (res, s2, tr ++ tr2)

/-- The posting loop of `process_population_criterion` (lines 131-152 of
`router_population.py`): one POST to the indicator endpoint per result row; a
non-2xx response is logged and aborts the loop with an exception. -/
def postAll (env : Env) (sid : Int) : List Int → Pipe Unit
  | [] => Pipe.pure ()
  | _ :: rest => do
    Pipe.emit (Ev.indicatorPost sid)
    if env.indPostStatus sid = 200 ∨ env.indPostStatus sid = 201 then
      postAll env sid rest
    else do
      Pipe.emit Ev.logErr
      Pipe.fail (Err.ext 13)

/-- The body of the try block of `process_population_criterion` (lines
98-152): scenario lookup (non-200 raises), project id extraction (missing
raises), territory fetch (non-200 raises), evaluation, then the posting
loop. -/
def ppcBody (env : Env) (sid : Int) : Pipe Unit := do
  Pipe.emit (Ev.scenarioLookup sid)
  if env.scenStatus sid ≠ 200 then
    Pipe.fail (Err.ext 10)
  else
    match env.scenProject sid with
    | none => Pipe.fail (Err.ext 11)
    | some project_id => do
      Pipe.emit (Ev.territoryFetch project_id)
      if env.terrStatus project_id ≠ 200 then
        Pipe.fail (Err.ext 12)
      else
        postAll env sid (env.evalScores sid)

/-- `process_population_criterion` (lines 95-155 of `router_population.py`):
the whole body runs inside a try whose except clause logs the exception and
returns normally, so the function itself never raises. -/
def process_population_criterion (env : Env) (sid : Int) : Pipe Unit := fun s =>
  match ppcBody env sid s with
  | (Except.ok _, s1, tr) => (Except.ok (), s1, tr)
  | (Except.error _, s1, tr) => (Except.ok (), s1, tr ++ [Ev.logErr])

/-- The body of the try block of `process_evaluation` (lines 61-138 of
`router_territory.py`): same shape as the criterion body, with the
territory-location evaluation results instead. -/
def peBody (env : Env) (sid : Int) : Pipe Unit := do
  Pipe.emit (Ev.scenarioLookup sid)
  if env.scenStatus sid ≠ 200 then
    Pipe.fail (Err.ext 10)
  else
    match env.scenProject sid with
    | none => Pipe.fail (Err.ext 11)
    | some project_id => do
      Pipe.emit (Ev.territoryFetch project_id)
      if env.terrStatus project_id ≠ 200 then
        Pipe.fail (Err.ext 12)
      else
        postAll env sid (env.evalScores2 sid)

/-- `process_evaluation` (lines 58-140 of `router_territory.py`): body wrapped
in a try whose except clause logs and returns normally. -/
def process_evaluation (env : Env) (sid : Int) : Pipe Unit := fun s =>
  match peBody env sid s with
  | (Except.ok _, s1, tr) => (Except.ok (), s1, tr)
  | (Except.error _, s1, tr) => (Except.ok (), s1, tr ++ [Ev.logErr])

/-- The try/except of `ProjectHandler.handle` (lines 39-62): an
`HTTPException` with status 404 is logged as informational and swallowed, any
other `HTTPException` is swallowed silently, and any other exception is logged
as an error and swallowed. -/
def handleGuard (m : Pipe Unit) : Pipe Unit := fun s =>
  match m s with
  | (Except.ok _, s1, tr) => (Except.ok (), s1, tr)
  | (Except.error e, s1, tr) =>
    match e with
    | Err.http status _ _ =>
      if status = 404 then (Except.ok (), s1, tr ++ [Ev.logInfo])
      else (Except.ok (), s1, tr)
    | _ => (Except.ok (), s1, tr ++ [Ev.logErr])

/-- `ProjectHandler.handle` (lines 27-63 of `project_handler.py`): load the
model for the event's territory (outside the try block), then run the two
processing steps inside the guard, and log completion. -/
def handle (env : Env) (territory_id base_scenario_id : Int) : Pipe Unit := do
  let _model ← get_model env territory_id
  handleGuard (do
    process_population_criterion env base_scenario_id
    process_evaluation env base_scenario_id)
  Pipe.emit Ev.logInfo

/-- An upstream HTTP response as `_check_response_status` inspects it: the
status code, whether the content type is JSON, the `error` field of a JSON
body when present, and an opaque payload for successful responses. -/
structure Resp where
  status : Nat
  isJson : Bool
  errField : Option (List Char)
  payload : Nat
  deriving Repr, DecidableEq

/-- Whether `a` is an initial segment of `b` (character lists). -/
def chStart : List Char → List Char → Bool
  | [], _ => true
  | _ :: _, [] => false
  | a :: as, b :: bs => a == b && chStart as bs

/-- Whether `pat` occurs as a contiguous substring of `s` (the python
`pat in s` test on strings). -/
def chSub (pat : List Char) : List Char → Bool
  | [] => chStart pat []
  | c :: cs => chStart pat (c :: cs) || chSub pat cs

/-- The marker `_check_response_status` looks for inside the `error` field of
a 500 JSON body. -/
def resetMarker : List Char := "reset by peer".toList

/-- `APIHandler._check_response_status` (lines 42-83 of `api_handler.py`):
200/201 return the payload; a 500 JSON response whose `error` field contains
"reset by peer" returns `None` (the retry signal); any other response raises
an `http_exception` carrying the upstream status. -/
def checkResponseStatus (r : Resp) : Except Err (Option Nat) :=
  if r.status = 200 ∨ r.status = 201 then Except.ok (some r.payload)
  else if r.status = 500 then
    match r.isJson, r.errField with
    | true, some msg =>
      if chSub resetMarker msg then Except.ok none
      else Except.error (http_exception 500 "Couldn't extract request from API" {})
    | true, none =>
      Except.error (http_exception 500 "Couldn't extract request from API" {})
    | false, _ =>
      Except.error (http_exception 500 "Couldn't extract request from API" {})
  else Except.error (http_exception r.status "Couldn't get data from API" {})

/-- `APIHandler.get` (lines 85-122): issue the request and check the response;
when the check returns the retry signal, silently re-issue the same request.
The stream `resp` gives the upstream response to the `n`-th issue of the
request; the python recursion is unbounded, so it is modelled with fuel
(`none` = the recursion has not terminated within the fuel). -/
def apiGet (resp : Nat → Resp) (i : Nat) : Nat → Option (Except Err Nat)
  | 0 => none
  | fuel + 1 =>
    match checkResponseStatus (resp i) with
    | Except.error e => some (Except.error e)
    | Except.ok (some v) => some (Except.ok v)
    | Except.ok none => apiGet resp (i + 1) fuel

/-- The upstream status carried by an error raised by the API handler. -/
def Err.statusOf : Err → Nat
  | Err.http status _ _ => status
  | _ => 0

theorem lookupCache_upsert_self (c : List (Int × Region)) (r : Int) (v : Region) :
    lookupCache (upsert c r v) r = some v := by
  induction c with
  | nil => simp [upsert, lookupCache]
  | cons hd tl ih =>
    by_cases h : hd.1 = r
    · simpa [upsert, h] using ih
    · simpa [upsert, lookupCache, h] using ih

theorem lookupCache_upsert_other (c : List (Int × Region)) (r k : Int) (v : Region)
    (h : k ≠ r) : lookupCache (upsert c r v) k = lookupCache c k := by
  have hrk : ¬r = k := fun hh => h hh.symm
  induction c with
  | nil => simp [upsert, lookupCache, hrk]
  | cons hd tl ih =>
    by_cases hh : hd.1 = r
    · have h1 : upsert (hd :: tl) r v = upsert tl r v := by simp [upsert, hh]
      have h2 : ¬hd.1 = k := by rw [hh]; exact hrk
      rw [h1, ih]
      simp [lookupCache, h2]
    · have h1 : upsert (hd :: tl) r v = hd :: upsert tl r v := by
        simp [upsert, hh]
      rw [h1]
      by_cases hk : hd.1 = k
      · simp [lookupCache, hk]
      · simp [lookupCache, hk, ih]

theorem lookupCache_some_any (c : List (Int × Region)) (r : Int) (m : Region)
    (h : lookupCache c r = some m) : c.any (fun p => p.1 == r) = true := by
  induction c with
  | nil => simp [lookupCache] at h
  | cons hd tl ih =>
    by_cases hh : hd.1 = r
    · simp [hh]
    · simp only [lookupCache, if_neg hh] at h
      simpa [hh] using ih h

theorem lookupCache_none_of_any_false (c : List (Int × Region)) (r : Int)
    (h : c.any (fun p => p.1 == r) = false) : lookupCache c r = none := by
  induction c with
  | nil => simp [lookupCache]
  | cons hd tl ih =>
    simp only [List.any_cons, Bool.or_eq_false_iff, beq_eq_false_iff_ne] at h
    simp only [lookupCache, if_neg h.1]
    exact ih (by simpa using h.2)

/-- A fully successful `calculate_model` run, characterized end to end: the
result, the final cache and layer store, and the exact event trace. -/
theorem calc_run_success (env : Env) (s : St) (r scen : Int) (b : Gdf) (c0 : Cities)
    (p : Pop) (mrows mcols : List Int) (t : Frame) (m2 : Mx)
    (hval : ¬r = 143111)
    (h1 : env.baseScenario r = Except.ok scen)
    (h2 : env.regionBorders r = Except.ok b)
    (h3 : env.tfCities r = Except.ok c0)
    (h4 : env.scenarioPopulation scen (townsIndex (reindexByTerritoryId c0)) = Except.ok p)
    (h5 : env.matrixFor r = Except.ok (mrows, mcols))
    (ht : t = restoreOriginalIndex (mergePop (reindexByTerritoryId c0) p)
        (env.fillLevels (mergePop (reindexByTerritoryId c0) p)))
    (hslice : Mx.locSq { rows := mrows, cols := mcols, crs := none } (townsIndex t)
        = Except.ok m2)
    (hinit : env.regionInitOk (Gdf.to_crs (env.estimateUtm b) b)
        (Frame.to_crs (env.estimateUtm b) t) m2 = true)
    (hwrite : env.writeOk r = true)
    (hup : env.uploadInd r scen = Except.ok ())
    (hdel : env.delLayersOk r = true)
    (hs1 : env.saveLayerOk r LayerType.agglomerations = true)
    (hs2 : env.saveLayerOk r LayerType.cities = true) :
    calculate_model env r s =
      (Except.ok (),
       { cache := upsert s.cache r
           { region := Gdf.to_crs (env.estimateUtm b) b,
             towns := Frame.to_crs (env.estimateUtm b) t,
             accessibility_matrix := m2 },
         layers := s.layers.filter (fun q => q.1 ≠ r) ++
           [(r, LayerType.agglomerations), (r, LayerType.cities)] },
       [Ev.fetchBase r, Ev.fetchBorders r, Ev.fetchCities r,
        Ev.fetchPop scen (townsIndex (reindexByTerritoryId c0)), Ev.fetchMatrix r,
        Ev.cacheWrite r, Ev.uploadInd r scen, Ev.delLayers r,
        Ev.saveLayer r LayerType.agglomerations, Ev.saveLayer r LayerType.cities]) := by
  subst ht
  simp [calculate_model, builderInputs, alignStage, Pipe.bind_eq, Pipe.pure_eq,
    Pipe.bind, Pipe.pure, Pipe.liftE, Pipe.ofExcept, h1, h2, h3, h4, h5, hslice,
    validate_region, hval, create_model, hinit, cache_model_to_pickle, hwrite, hup,
    delete_geoserver_cached_layers, hdel, save_gdf_to_geoserver, hs1, hs2]

/-- Whether an `Except` result is an error. -/
def isErr {α : Type} : Except Err α → Bool
  | Except.error _ => true
  | Except.ok _ => false

theorem any_upsert_self (c : List (Int × Region)) (r : Int) (v : Region) :
    (upsert c r v).any (fun p => p.1 == r) = true :=
  lookupCache_some_any (upsert c r v) r v (lookupCache_upsert_self c r v)

/-- C1: for every region id, `get_model` runs the full compute pipeline
(fetch, align, build, cache, derive, publish) synchronously before returning
when no cached artifact exists, and when one exists it returns a handle loaded
directly from the cache without recomputing; in both cases the returned handle
pairs the region id with the model deserialized from the cache. -/
theorem get_model_cache_semantics (env : Env) (s : St) (r scen : Int) (b : Gdf)
    (c0 : Cities) (p : Pop) (mrows mcols : List Int) (t : Frame) (m2 : Mx)
    (hval : ¬r = 143111)
    (h1 : env.baseScenario r = Except.ok scen)
    (h2 : env.regionBorders r = Except.ok b)
    (h3 : env.tfCities r = Except.ok c0)
    (h4 : env.scenarioPopulation scen (townsIndex (reindexByTerritoryId c0)) = Except.ok p)
    (h5 : env.matrixFor r = Except.ok (mrows, mcols))
    (ht : t = restoreOriginalIndex (mergePop (reindexByTerritoryId c0) p)
        (env.fillLevels (mergePop (reindexByTerritoryId c0) p)))
    (hslice : Mx.locSq { rows := mrows, cols := mcols, crs := none } (townsIndex t)
        = Except.ok m2)
    (hinit : env.regionInitOk (Gdf.to_crs (env.estimateUtm b) b)
        (Frame.to_crs (env.estimateUtm b) t) m2 = true)
    (hwrite : env.writeOk r = true)
    (hup : env.uploadInd r scen = Except.ok ())
    (hdel : env.delLayersOk r = true)
    (hs1 : env.saveLayerOk r LayerType.agglomerations = true)
    (hs2 : env.saveLayerOk r LayerType.cities = true)
    (hload : env.loadOk r = true) :
    (∀ m, lookupCache s.cache r = some m →
      get_model env r s =
        (Except.ok { region_id := r, region_model := m }, s, [Ev.loadModel r]))
    ∧
    (s.cache.any (fun q => q.1 == r) = false →
      get_model env r s =
        (Except.ok
          { region_id := r,
            region_model :=
              { region := Gdf.to_crs (env.estimateUtm b) b,
                towns := Frame.to_crs (env.estimateUtm b) t,
                accessibility_matrix := m2 } },
         { cache := upsert s.cache r
             { region := Gdf.to_crs (env.estimateUtm b) b,
               towns := Frame.to_crs (env.estimateUtm b) t,
               accessibility_matrix := m2 },
           layers := s.layers.filter (fun q => q.1 ≠ r) ++
             [(r, LayerType.agglomerations), (r, LayerType.cities)] },
         [Ev.fetchBase r, Ev.fetchBorders r, Ev.fetchCities r,
          Ev.fetchPop scen (townsIndex (reindexByTerritoryId c0)), Ev.fetchMatrix r,
          Ev.cacheWrite r, Ev.uploadInd r scen, Ev.delLayers r,
          Ev.saveLayer r LayerType.agglomerations, Ev.saveLayer r LayerType.cities,
          Ev.loadModel r]) ∧
      lookupCache (upsert s.cache r
          { region := Gdf.to_crs (env.estimateUtm b) b,
            towns := Frame.to_crs (env.estimateUtm b) t,
            accessibility_matrix := m2 }) r =
        some
          { region := Gdf.to_crs (env.estimateUtm b) b,
            towns := Frame.to_crs (env.estimateUtm b) t,
            accessibility_matrix := m2 }) := by
  constructor
  · intro m hm
    have hany := lookupCache_some_any s.cache r m hm
    simp [get_model, Pipe.bind_eq, Pipe.pure_eq, Pipe.bind, Pipe.pure, check_path,
      hany, load_cached_model, hm, hload, Pipe.pure_apply]
  · intro hmiss
    have hc := calc_run_success env s r scen b c0 p mrows mcols t m2 hval h1 h2 h3
      h4 h5 ht hslice hinit hwrite hup hdel hs1 hs2
    refine ⟨?_, lookupCache_upsert_self _ _ _⟩
    simp [get_model, Pipe.bind_eq, Pipe.pure_eq, Pipe.bind, Pipe.pure, check_path,
      hmiss, hc, load_cached_model, lookupCache_upsert_self, hload, Pipe.pure_apply]

theorem filter_ne_then_eq (l : List (Int × LayerType)) (r : Int) :
    (l.filter (fun q => q.1 ≠ r)).filter (fun q => q.1 = r) = [] := by
  induction l with
  | nil => rfl
  | cons hd tl ih =>
    by_cases h : hd.1 = r
    · simp [List.filter, h, ih]
    · simp [List.filter, h, ih]

/-- C3: in every successful `calculate_model` run all previously stored
derived layers for the region (both layer types) are deleted before any new
layer is written, so afterwards exactly one fresh generation (one
agglomerations layer and one cities layer) exists for the region. -/
theorem calc_replaces_layer_generation (env : Env) (s : St) (r scen : Int)
    (b : Gdf) (c0 : Cities) (p : Pop) (mrows mcols : List Int) (t : Frame) (m2 : Mx)
    (hval : ¬r = 143111)
    (h1 : env.baseScenario r = Except.ok scen)
    (h2 : env.regionBorders r = Except.ok b)
    (h3 : env.tfCities r = Except.ok c0)
    (h4 : env.scenarioPopulation scen (townsIndex (reindexByTerritoryId c0)) = Except.ok p)
    (h5 : env.matrixFor r = Except.ok (mrows, mcols))
    (ht : t = restoreOriginalIndex (mergePop (reindexByTerritoryId c0) p)
        (env.fillLevels (mergePop (reindexByTerritoryId c0) p)))
    (hslice : Mx.locSq { rows := mrows, cols := mcols, crs := none } (townsIndex t)
        = Except.ok m2)
    (hinit : env.regionInitOk (Gdf.to_crs (env.estimateUtm b) b)
        (Frame.to_crs (env.estimateUtm b) t) m2 = true)
    (hwrite : env.writeOk r = true)
    (hup : env.uploadInd r scen = Except.ok ())
    (hdel : env.delLayersOk r = true)
    (hs1 : env.saveLayerOk r LayerType.agglomerations = true)
    (hs2 : env.saveLayerOk r LayerType.cities = true) :
    (calculate_model env r s).1 = Except.ok ()
    ∧ List.Sublist
        [Ev.delLayers r, Ev.saveLayer r LayerType.agglomerations,
         Ev.saveLayer r LayerType.cities]
        (calculate_model env r s).2.2
    ∧ ((calculate_model env r s).2.1).layers.filter (fun q => q.1 = r) =
        [(r, LayerType.agglomerations), (r, LayerType.cities)]
    ∧ ((calculate_model env r s).2.1).layers.filter (fun q => q.1 ≠ r) =
        s.layers.filter (fun q => q.1 ≠ r) := by
  have hc := calc_run_success env s r scen b c0 p mrows mcols t m2 hval h1 h2 h3
    h4 h5 ht hslice hinit hwrite hup hdel hs1 hs2
  rw [hc]
  refine ⟨rfl, ?_, ?_, ?_⟩
  · exact (((((((List.Sublist.refl _).cons _).cons _).cons _).cons _).cons _).cons
      _).cons _
  · simp [List.filter_append, filter_ne_then_eq]
  · simp [List.filter_append, List.filter_filter]

/-- C10: `calculate_model` persists the freshly built model to the cache
before computing and publishing derived layers and indicators; if any step
after the cache write fails (indicator upload, old-layer deletion, or either
layer upload), the call raises but the region's cache entry already holds the
new model: the existence check is true and a subsequent `get_model` returns
the new model from the cache without recomputation. -/
theorem calc_cache_survives_publish_failure (env : Env) (s : St) (r scen : Int)
    (b : Gdf) (c0 : Cities) (p : Pop) (mrows mcols : List Int) (t : Frame) (m2 : Mx)
    (hval : ¬r = 143111)
    (h1 : env.baseScenario r = Except.ok scen)
    (h2 : env.regionBorders r = Except.ok b)
    (h3 : env.tfCities r = Except.ok c0)
    (h4 : env.scenarioPopulation scen (townsIndex (reindexByTerritoryId c0)) = Except.ok p)
    (h5 : env.matrixFor r = Except.ok (mrows, mcols))
    (ht : t = restoreOriginalIndex (mergePop (reindexByTerritoryId c0) p)
        (env.fillLevels (mergePop (reindexByTerritoryId c0) p)))
    (hslice : Mx.locSq { rows := mrows, cols := mcols, crs := none } (townsIndex t)
        = Except.ok m2)
    (hinit : env.regionInitOk (Gdf.to_crs (env.estimateUtm b) b)
        (Frame.to_crs (env.estimateUtm b) t) m2 = true)
    (hwrite : env.writeOk r = true)
    (hload : env.loadOk r = true)
    (hpost : (∃ e, env.uploadInd r scen = Except.error e) ∨
      env.delLayersOk r = false ∨
      env.saveLayerOk r LayerType.agglomerations = false ∨
      env.saveLayerOk r LayerType.cities = false) :
    isErr (calculate_model env r s).1 = true
    ∧ lookupCache ((calculate_model env r s).2.1).cache r =
        some { region := Gdf.to_crs (env.estimateUtm b) b,
               towns := Frame.to_crs (env.estimateUtm b) t,
               accessibility_matrix := m2 }
    ∧ ((calculate_model env r s).2.1).cache.any (fun q => q.1 == r) = true
    ∧ get_model env r ((calculate_model env r s).2.1) =
        (Except.ok
          { region_id := r,
            region_model :=
              { region := Gdf.to_crs (env.estimateUtm b) b,
                towns := Frame.to_crs (env.estimateUtm b) t,
                accessibility_matrix := m2 } },
         (calculate_model env r s).2.1, [Ev.loadModel r]) := by
  subst ht
  have key : isErr (calculate_model env r s).1 = true ∧
      ((calculate_model env r s).2.1).cache = upsert s.cache r
        { region := Gdf.to_crs (env.estimateUtm b) b,
          towns := Frame.to_crs (env.estimateUtm b)
            (restoreOriginalIndex (mergePop (reindexByTerritoryId c0) p)
              (env.fillLevels (mergePop (reindexByTerritoryId c0) p))),
          accessibility_matrix := m2 } := by
    rcases hup2 : env.uploadInd r scen with e | u
    · constructor <;>
        simp [calculate_model, builderInputs, alignStage, Pipe.bind_eq, Pipe.pure_eq,
          Pipe.bind, Pipe.pure, Pipe.liftE, Pipe.ofExcept, h1, h2, h3, h4, h5, hslice,
          validate_region, hval, create_model, hinit, cache_model_to_pickle, hwrite,
          hup2, isErr]
    · cases hd2 : env.delLayersOk r with
      | false =>
        constructor <;>
          simp [calculate_model, builderInputs, alignStage, Pipe.bind_eq, Pipe.pure_eq,
            Pipe.bind, Pipe.pure, Pipe.liftE, Pipe.ofExcept, h1, h2, h3, h4, h5, hslice,
            validate_region, hval, create_model, hinit, cache_model_to_pickle, hwrite,
            hup2, delete_geoserver_cached_layers, hd2, isErr]
      | true =>
        cases hs1c : env.saveLayerOk r LayerType.agglomerations with
        | false =>
          constructor <;>
            simp [calculate_model, builderInputs, alignStage, Pipe.bind_eq, Pipe.pure_eq,
              Pipe.bind, Pipe.pure, Pipe.liftE, Pipe.ofExcept, h1, h2, h3, h4, h5, hslice,
              validate_region, hval, create_model, hinit, cache_model_to_pickle, hwrite,
              hup2, delete_geoserver_cached_layers, hd2, save_gdf_to_geoserver, hs1c,
              isErr]
        | true =>
          cases hs2c : env.saveLayerOk r LayerType.cities with
          | false =>
            constructor <;>
              simp [calculate_model, builderInputs, alignStage, Pipe.bind_eq,
                Pipe.pure_eq, Pipe.bind, Pipe.pure, Pipe.liftE, Pipe.ofExcept, h1, h2,
                h3, h4, h5, hslice, validate_region, hval, create_model, hinit,
                cache_model_to_pickle, hwrite, hup2, delete_geoserver_cached_layers,
                hd2, save_gdf_to_geoserver, hs1c, hs2c, isErr]
          | true =>
            exfalso
            rcases hpost with ⟨e, he⟩ | hdf | hxf | hyf
            · simp [hup2] at he
            · simp [hd2] at hdf
            · simp [hs1c] at hxf
            · simp [hs2c] at hyf
  obtain ⟨key1, key2⟩ := key
  have hlk : lookupCache ((calculate_model env r s).2.1).cache r =
      some { region := Gdf.to_crs (env.estimateUtm b) b,
             towns := Frame.to_crs (env.estimateUtm b)
               (restoreOriginalIndex (mergePop (reindexByTerritoryId c0) p)
                 (env.fillLevels (mergePop (reindexByTerritoryId c0) p))),
             accessibility_matrix := m2 } := by
    rw [key2]; exact lookupCache_upsert_self _ _ _
  have hany2 : ((calculate_model env r s).2.1).cache.any (fun q => q.1 == r) = true := by
    rw [key2]; exact any_upsert_self _ _ _
  refine ⟨key1, hlk, hany2, ?_⟩
  simp [get_model, Pipe.bind_eq, Pipe.pure_eq, Pipe.bind, Pipe.pure, check_path,
    hany2, load_cached_model, hlk, hload, Pipe.pure_apply]

/-- C2: the adjacency matrix handed to the model builder has row and column
index exactly equal to the final town index (after the original-index
restoration from the population join), in the same order; and if the fetched
matrix is missing a town identifier present in the towns table, the pipeline
fails deterministically with a key error naming the missing labels rather
than silently dropping or zero-filling them. -/
theorem matrix_alignment_invariant (env : Env) (r : Int) (s : St) :
    (∀ base bg t m s1 tr,
      builderInputs env r s = (Except.ok (base, bg, t, m), s1, tr) →
      m.rows = townsIndex t ∧ m.cols = townsIndex t)
    ∧ (∀ base bg t m0 s1 tr i,
      alignStage env r s = (Except.ok (base, bg, t, m0), s1, tr) →
      i ∈ townsIndex t → i ∉ m0.rows →
      i ∈ (townsIndex t).filter
        (fun j => !(m0.rows.contains j && m0.cols.contains j)) ∧
      builderInputs env r s =
        (Except.error (Err.keyError ((townsIndex t).filter
          (fun j => !(m0.rows.contains j && m0.cols.contains j)))), s1, tr)) := by
  constructor
  · intro base bg t m s1 tr h
    rcases hA : alignStage env r s with ⟨resA, sA, trA⟩
    cases resA with
    | error e =>
      simp [builderInputs, Pipe.bind_eq, Pipe.bind, hA] at h
    | ok pre =>
      rcases pre with ⟨base2, bg2, t2, m0⟩
      rcases hL : Mx.locSq m0 (townsIndex t2) with e2 | mx
      · simp [builderInputs, Pipe.bind_eq, Pipe.bind, Pipe.ofExcept, Pipe.pure,
          hA, hL] at h
      · have hshape : mx.rows = townsIndex t2 ∧ mx.cols = townsIndex t2 := by
          unfold Mx.locSq at hL
          by_cases hcond : ((townsIndex t2).filter
              (fun j => !(m0.rows.contains j && m0.cols.contains j))).isEmpty = true
          · rw [if_pos hcond] at hL
            cases hL
            exact ⟨rfl, rfl⟩
          · rw [if_neg hcond] at hL
            cases hL
        simp [builderInputs, Pipe.bind_eq, Pipe.bind, Pipe.ofExcept, Pipe.pure,
          hA, hL] at h
        rcases h with ⟨⟨rfl, rfl, rfl, rfl⟩, rfl, rfl⟩
        exact hshape
  · intro base bg t m0 s1 tr i hAlign hi hnotin
    have hmem : i ∈ (townsIndex t).filter
        (fun j => !(m0.rows.contains j && m0.cols.contains j)) := by
      rw [List.mem_filter]
      refine ⟨hi, ?_⟩
      simp
      exact Or.inl hnotin
    have hne : ((townsIndex t).filter
        (fun j => !(m0.rows.contains j && m0.cols.contains j))).isEmpty = false := by
      rcases hh : (townsIndex t).filter
          (fun j => !(m0.rows.contains j && m0.cols.contains j)) with _ | ⟨a, l⟩
      · rw [hh] at hmem; cases hmem
      · rfl
    have hL : Mx.locSq m0 (townsIndex t) =
        Except.error (Err.keyError ((townsIndex t).filter
          (fun j => !(m0.rows.contains j && m0.cols.contains j)))) := by
      have hcond : ¬(((townsIndex t).filter
          (fun j => !(m0.rows.contains j && m0.cols.contains j))).isEmpty = true) := by
        rw [hne]; exact Bool.false_ne_true
      unfold Mx.locSq
      exact if_neg hcond
    refine ⟨hmem, ?_⟩
    simp [builderInputs, Pipe.bind_eq, Pipe.bind, Pipe.ofExcept, hAlign, hL]

theorem bind_liftE_trace {α β : Type} (x : Except Err α) (ev : Ev) (f : α → Pipe β)
    (s : St) : ∃ rest, (Pipe.bind (Pipe.liftE x ev) f s).2.2 = ev :: rest := by
  cases x with
  | error e => exact ⟨[], by simp [Pipe.bind, Pipe.liftE]⟩
  | ok a =>
    rcases hf : f a s with ⟨r2, s2, tr2⟩
    exact ⟨tr2, by simp [Pipe.bind, Pipe.liftE, hf]⟩

theorem bind_trace_head {α β : Type} (m : Pipe α) (f : α → Pipe β) (s : St)
    (ev : Ev) (rest : List Ev) (h : (m s).2.2 = ev :: rest) :
    ∃ rest2, (Pipe.bind m f s).2.2 = ev :: rest2 := by
  rcases hm : m s with ⟨res, s1, tr1⟩
  rw [hm] at h
  cases res with
  | error e => exact ⟨rest, by simp [Pipe.bind, hm]; exact h⟩
  | ok a =>
    rcases hf : f a s1 with ⟨r2, s2, tr2⟩
    refine ⟨rest ++ tr2, ?_⟩
    simp [Pipe.bind, hm, hf]
    simp at h
    simp [h]

theorem align_trace_head (env : Env) (r : Int) (s : St) :
    ∃ rest, (alignStage env r s).2.2 = Ev.fetchBase r :: rest := by
  unfold alignStage
  simp only [Pipe.bind_eq]
  exact bind_liftE_trace _ _ _ _

theorem builder_trace_head (env : Env) (r : Int) (s : St) :
    ∃ rest, (builderInputs env r s).2.2 = Ev.fetchBase r :: rest := by
  obtain ⟨r0, h0⟩ := align_trace_head env r s
  unfold builderInputs
  simp only [Pipe.bind_eq]
  exact bind_trace_head _ _ _ _ _ h0

theorem calc_trace_head (env : Env) (r : Int) (s : St) :
    ∃ rest, (calculate_model env r s).2.2 = Ev.fetchBase r :: rest := by
  obtain ⟨r0, h0⟩ := builder_trace_head env r s
  unfold calculate_model
  simp only [Pipe.bind_eq]
  exact bind_trace_head _ _ _ _ _ h0

theorem calcLogged_state (env : Env) (r : Int) (s : St) :
    (calcLogged env r s).2.1 = (calculate_model env r s).2.1 := by
  unfold calcLogged
  rcases hc : calculate_model env r s with ⟨res, s1, tr⟩
  cases res <;> simp

theorem calcLogged_runs (env : Env) (r : Int) (s : St) :
    (calcLogged env r s).1 = Except.ok () ∧
    ∃ rest, (calcLogged env r s).2.2 = Ev.fetchBase r :: rest := by
  obtain ⟨rest, hh⟩ := calc_trace_head env r s
  rcases hc : calculate_model env r s with ⟨res, s1, tr⟩
  rw [hc] at hh
  simp only at hh
  cases res with
  | error e =>
    refine ⟨by simp [calcLogged, hc], rest ++ [Ev.logErr], ?_⟩
    simp [calcLogged, hc, hh]
  | ok u =>
    refine ⟨by simp [calcLogged, hc], rest, ?_⟩
    simp [calcLogged, hc, hh]

/-- A computation that leaves the state unchanged. -/
def StateInv {α : Type} (m : Pipe α) : Prop :=
  ∀ s, (m s).2.1 = s

/-- A computation that leaves the cache entry of `k` unchanged. -/
def CacheOther {α : Type} (m : Pipe α) (k : Int) : Prop :=
  ∀ s, lookupCache ((m s).2.1).cache k = lookupCache s.cache k

theorem stateInv_bind {α β : Type} {m : Pipe α} {f : α → Pipe β}
    (hm : StateInv m) (hf : ∀ a, StateInv (f a)) : StateInv (Pipe.bind m f) := by
  intro s
  unfold Pipe.bind
  rcases hms : m s with ⟨res, s1, tr⟩
  have h1 : s1 = s := by have := hm s; rw [hms] at this; exact this
  subst h1
  cases res with
  | error e => simp
  | ok a =>
    rcases hfs : f a s1 with ⟨res2, s2, tr2⟩
    have h2 : s2 = s1 := by have := hf a s1; rw [hfs] at this; exact this
    subst h2
    simp [hfs]

theorem StateInv.cacheOther {α : Type} {m : Pipe α} (h : StateInv m) (k : Int) :
    CacheOther m k := by
  intro s
  rw [h s]

theorem cacheOther_bind {α β : Type} {m : Pipe α} {f : α → Pipe β} {k : Int}
    (hm : CacheOther m k) (hf : ∀ a, CacheOther (f a) k) :
    CacheOther (Pipe.bind m f) k := by
  intro s
  unfold Pipe.bind
  rcases hms : m s with ⟨res, s1, tr⟩
  have h1 : lookupCache s1.cache k = lookupCache s.cache k := by
    have := hm s; rw [hms] at this; exact this
  cases res with
  | error e => simpa using h1
  | ok a =>
    rcases hfs : f a s1 with ⟨res2, s2, tr2⟩
    have h2 : lookupCache s2.cache k = lookupCache s1.cache k := by
      have := hf a s1; rw [hfs] at this; exact this
    simp [hfs]
    rw [h2, h1]

theorem stateInv_liftE {α : Type} (x : Except Err α) (ev : Ev) :
    StateInv (Pipe.liftE x ev) := fun _ => rfl

theorem stateInv_ofExcept {α : Type} (x : Except Err α) :
    StateInv (Pipe.ofExcept x) := fun _ => rfl

theorem stateInv_pure {α : Type} (a : α) : StateInv (Pipe.pure a) := fun _ => rfl

theorem alignStage_stateInv (env : Env) (r : Int) : StateInv (alignStage env r) := by
  unfold alignStage
  simp only [Pipe.bind_eq]
  apply stateInv_bind (stateInv_liftE _ _)
  intro a
  apply stateInv_bind (stateInv_ofExcept _)
  intro a2
  apply stateInv_bind (stateInv_liftE _ _)
  intro a3
  apply stateInv_bind (stateInv_liftE _ _)
  intro a4
  apply stateInv_bind (stateInv_liftE _ _)
  intro a5
  apply stateInv_bind (stateInv_liftE _ _)
  intro a6
  exact stateInv_pure _

theorem builderInputs_stateInv (env : Env) (r : Int) :
    StateInv (builderInputs env r) := by
  unfold builderInputs
  simp only [Pipe.bind_eq]
  apply stateInv_bind (alignStage_stateInv env r)
  intro pre
  apply stateInv_bind (stateInv_ofExcept _)
  intro mx
  exact stateInv_pure _

theorem cache_pickle_cacheOther (env : Env) (model : Region) (r k : Int)
    (hk : k ≠ r) : CacheOther (cache_model_to_pickle env model r) k := by
  intro s
  unfold cache_model_to_pickle
  by_cases hw : env.writeOk r = true
  · simp [hw, lookupCache_upsert_other _ _ _ _ hk]
  · by_cases hl : env.listCachedOk = true
    · simp [hw, hl]
    · simp [hw, hl]

theorem delete_layers_cacheOther (env : Env) (r k : Int) :
    CacheOther (delete_geoserver_cached_layers env r) k := by
  intro s
  unfold delete_geoserver_cached_layers
  by_cases hd : env.delLayersOk r = true
  · simp [hd]
  · simp [hd]

theorem save_layer_cacheOther (env : Env) (r : Int) (lt : LayerType) (k : Int) :
    CacheOther (save_gdf_to_geoserver env r lt) k := by
  intro s
  unfold save_gdf_to_geoserver
  by_cases hd : env.saveLayerOk r lt = true
  · simp [hd]
  · simp [hd]

theorem calc_cache_other (env : Env) (r : Int) (k : Int) (hk : k ≠ r) :
    CacheOther (calculate_model env r) k := by
  unfold calculate_model
  simp only [Pipe.bind_eq]
  apply cacheOther_bind ((builderInputs_stateInv env r).cacheOther k)
  intro pre
  apply cacheOther_bind ((stateInv_ofExcept _).cacheOther k)
  intro model
  apply cacheOther_bind (cache_pickle_cacheOther env model r k hk)
  intro u1
  apply cacheOther_bind ((stateInv_liftE _ _).cacheOther k)
  intro u2
  apply cacheOther_bind (delete_layers_cacheOther env r k)
  intro u3
  apply cacheOther_bind (save_layer_cacheOther env r LayerType.agglomerations k)
  intro u4
  exact save_layer_cacheOther env r LayerType.cities k

theorem calcLogged_cacheOther (env : Env) (r k : Int) (hk : k ≠ r) :
    CacheOther (calcLogged env r) k := by
  intro s
  have hst : (calcLogged env r s).2.1 = (calculate_model env r s).2.1 :=
    calcLogged_state env r s
  rw [hst]
  exact calc_cache_other env r k hk s

theorem forRegions_runs (env : Env) (rs : List Int) :
    ∀ s, (forRegions env rs s).1 = Except.ok () ∧
      ∀ r, r ∈ rs → Ev.fetchBase r ∈ (forRegions env rs s).2.2 := by
  induction rs with
  | nil =>
    intro s
    exact ⟨rfl, by intro r hr; cases hr⟩
  | cons r0 rest ih =>
    intro s
    unfold forRegions
    simp only [Pipe.bind_eq, Pipe.bind]
    obtain ⟨hok, tl, htl⟩ := calcLogged_runs env r0 s
    rcases hcl : calcLogged env r0 s with ⟨res, s1, tr1⟩
    rw [hcl] at hok htl
    simp only at hok htl
    subst hok
    rcases hf : forRegions env rest s1 with ⟨res2, s2, tr2⟩
    obtain ⟨hok2, hmem2⟩ := ih s1
    rw [hf] at hok2 hmem2
    simp only at hok2 hmem2
    simp only [hf]
    constructor
    · simpa using hok2
    · intro r hr
      rcases List.mem_cons.mp hr with hr0 | hrest
      · subst hr0
        simp [htl]
      · simp
        exact Or.inr (hmem2 r hrest)

/-- C6: `load_and_cache_all_models` iterates every known region id; a failing
`calculate_model` for one region is logged and the loop continues, so the
batch call always completes and every region is attempted. -/
theorem bulk_load_isolates_failures (env : Env) (s : St) (rs : List Int)
    (h : env.regions = Except.ok rs) :
    (load_and_cache_all_models env s).1 = Except.ok () ∧
    ∀ r, r ∈ rs → Ev.fetchBase r ∈ (load_and_cache_all_models env s).2.2 := by
  unfold load_and_cache_all_models
  simp only [Pipe.bind_eq, Pipe.bind, Pipe.liftE, h]
  rcases hf : forRegions env rs s with ⟨res, s1, tr⟩
  obtain ⟨hok, hmem⟩ := forRegions_runs env rs s
  rw [hf] at hok hmem
  simp only at hok hmem
  subst hok
  constructor
  · rfl
  · intro r hr
    simp
    exact hmem r hr

theorem forRegions_cacheOther (env : Env) (rs : List Int) (k : Int) :
    k ∉ rs → CacheOther (forRegions env rs) k := by
  induction rs with
  | nil => intro _ s; simp [forRegions, Pipe.pure]
  | cons r rest ih =>
    intro hk
    have hkr : k ≠ r := by
      intro h
      exact hk (by rw [h]; exact List.mem_cons_self r rest)
    have hkrest : k ∉ rest := fun h => hk (List.mem_cons_of_mem _ h)
    unfold forRegions
    simp only [Pipe.bind_eq]
    exact cacheOther_bind (calcLogged_cacheOther env r k hkr) (fun _ => ih hkrest)

/-- C5: the startup warmup recomputes exactly the set difference of all known
region ids minus the cached region ids (for all regions 1,2,3 and cached
region 2, the loop runs over exactly the regions 1 and 3, and region 2's
cache entry is untouched); and when listing all regions or listing the cached
regions fails, the whole warmup is abandoned after logging, with no region
recomputed and the state unchanged. -/
theorem startup_warmup_semantics (env : Env) (s : St) :
    (∀ m : Region, env.regions = Except.ok [1, 2, 3] → env.listCachedOk = true →
      s.cache = [(2, m)] →
      (load_and_cache_all_models_on_startup env s).1 = Except.ok () ∧
      Ev.fetchBase 1 ∈ (load_and_cache_all_models_on_startup env s).2.2 ∧
      Ev.fetchBase 3 ∈ (load_and_cache_all_models_on_startup env s).2.2 ∧
      (load_and_cache_all_models_on_startup env s).2.2 =
        Ev.fetchRegions :: (forRegions env [1, 3] s).2.2 ∧
      lookupCache ((load_and_cache_all_models_on_startup env s).2.1).cache 2 = some m)
    ∧ (∀ e, env.regions = Except.error e →
      load_and_cache_all_models_on_startup env s =
        (Except.ok (), s, [Ev.fetchRegions, Ev.logErr]))
    ∧ (∀ rs, env.regions = Except.ok rs → env.listCachedOk = false →
      load_and_cache_all_models_on_startup env s =
        (Except.ok (), s, [Ev.fetchRegions, Ev.logErr])) := by
  refine ⟨?_, ?_, ?_⟩
  · intro m h1 h2 h3
    have hdiff : setDiff [1, 2, 3] [2] = [1, 3] := by decide
    have hrun : load_and_cache_all_models_on_startup env s =
        ((forRegions env [1, 3] s).1, (forRegions env [1, 3] s).2.1,
          Ev.fetchRegions :: (forRegions env [1, 3] s).2.2) := by
      unfold load_and_cache_all_models_on_startup
      simp only [Pipe.bind_eq, Pipe.bind, Pipe.liftE, Pipe.pure,
        get_available_regions, get_available_models, h1, h2, if_true, h3]
      simp only [List.map_cons, List.map_nil, hdiff]
      rcases hf : forRegions env [1, 3] s with ⟨res, s2, tr2⟩
      simp [hf]
    obtain ⟨hok, hmem⟩ := forRegions_runs env [1, 3] s
    have hpres := forRegions_cacheOther env [1, 3] 2 (by decide) s
    refine ⟨?_, ?_, ?_, ?_, ?_⟩
    · rw [hrun]; exact hok
    · rw [hrun]
      exact List.mem_cons_of_mem _ (hmem 1 (by decide))
    · rw [hrun]
      exact List.mem_cons_of_mem _ (hmem 3 (by decide))
    · rw [hrun]
    · rw [hrun]
      have h4 : lookupCache s.cache 2 = some m := by
        rw [h3]; simp [lookupCache]
      rw [hpres, h4]
  · intro e h1
    unfold load_and_cache_all_models_on_startup
    simp [Pipe.bind_eq, Pipe.bind, Pipe.liftE, Pipe.pure, h1]
  · intro rs h1 h2
    unfold load_and_cache_all_models_on_startup
    simp [Pipe.bind_eq, Pipe.bind, Pipe.liftE, Pipe.pure, get_available_regions,
      get_available_models, h1, h2]

/-- C4 (amended): a cache write failure raises an error carrying the region id
in its message and the list of currently available cached region ids in its
detail; a cache read failure (missing or corrupt file) raises an error
carrying the region id in its message and the file path, but no list of
available ids. -/
theorem cache_persistence_error_payload (env : Env) (s : St) (r : Int)
    (model : Region) :
    (env.writeOk r = false → env.listCachedOk = true →
      cache_model_to_pickle env model r s =
        (Except.error (Err.http 500 ("Failed to cache file to pickle " ++ toString r)
          { availableFiles := some (s.cache.map (fun p => p.1)), filepath := none }),
         s, [Ev.logErr]))
    ∧ (lookupCache s.cache r = none →
      load_cached_model env r s =
        (Except.error (Err.http 500 ("Failed to load file from pickle " ++ toString r)
          { availableFiles := none, filepath := some (toString r ++ ".pkl") }),
         s, []))
    ∧ (∀ m, lookupCache s.cache r = some m → env.loadOk r = false →
      load_cached_model env r s =
        (Except.error (Err.http 500 ("Failed to load file from pickle " ++ toString r)
          { availableFiles := none, filepath := some (toString r ++ ".pkl") }),
         s, [])) := by
  refine ⟨?_, ?_, ?_⟩
  · intro hw hl
    unfold cache_model_to_pickle
    simp [hw, hl, http_exception]
  · intro hnone
    unfold load_cached_model
    simp [hnone, http_exception]
  · intro m hm hl
    unfold load_cached_model
    simp [hm, hl, http_exception]

theorem stateInv_emit (ev : Ev) : StateInv (Pipe.emit ev) := fun _ => rfl

theorem stateInv_fail {α : Type} (e : Err) : StateInv (Pipe.fail e : Pipe α) :=
  fun _ => rfl

theorem postAll_stateInv (env : Env) (sid : Int) (l : List Int) :
    StateInv (postAll env sid l) := by
  induction l with
  | nil => exact stateInv_pure _
  | cons a l ih =>
    unfold postAll
    simp only [Pipe.bind_eq]
    apply stateInv_bind (stateInv_emit _)
    intro u
    dsimp only
    by_cases h : env.indPostStatus sid = 200 ∨ env.indPostStatus sid = 201
    · rw [if_pos h]
      exact ih
    · rw [if_neg h]
      exact stateInv_bind (stateInv_emit _) (fun _ => stateInv_fail _)

theorem ppcBody_stateInv (env : Env) (sid : Int) : StateInv (ppcBody env sid) := by
  unfold ppcBody
  simp only [Pipe.bind_eq]
  apply stateInv_bind (stateInv_emit _)
  intro u
  dsimp only
  by_cases h1 : env.scenStatus sid ≠ 200
  · rw [if_pos h1]
    exact stateInv_fail _
  · rw [if_neg h1]
    rcases hp : env.scenProject sid with _ | pid
    · exact stateInv_fail _
    · dsimp only
      apply stateInv_bind (stateInv_emit _)
      intro u2
      dsimp only
      by_cases h2 : env.terrStatus pid ≠ 200
      · rw [if_pos h2]
        exact stateInv_fail _
      · rw [if_neg h2]
        exact postAll_stateInv env sid _

theorem peBody_stateInv (env : Env) (sid : Int) : StateInv (peBody env sid) := by
  unfold peBody
  simp only [Pipe.bind_eq]
  apply stateInv_bind (stateInv_emit _)
  intro u
  dsimp only
  by_cases h1 : env.scenStatus sid ≠ 200
  · rw [if_pos h1]
    exact stateInv_fail _
  · rw [if_neg h1]
    rcases hp : env.scenProject sid with _ | pid
    · exact stateInv_fail _
    · dsimp only
      apply stateInv_bind (stateInv_emit _)
      intro u2
      dsimp only
      by_cases h2 : env.terrStatus pid ≠ 200
      · rw [if_pos h2]
        exact stateInv_fail _
      · rw [if_neg h2]
        exact postAll_stateInv env sid _

theorem ppc_runs (env : Env) (sid : Int) (s : St) :
    ∃ tr, process_population_criterion env sid s = (Except.ok (), s, tr) := by
  rcases hb : ppcBody env sid s with ⟨res, s1, tr⟩
  have hs : s1 = s := by
    have := ppcBody_stateInv env sid s
    rw [hb] at this
    exact this
  subst hs
  cases res with
  | ok u =>
    exact ⟨tr, by unfold process_population_criterion; rw [hb]⟩
  | error e =>
    exact ⟨tr ++ [Ev.logErr], by unfold process_population_criterion; rw [hb]⟩

theorem pe_runs (env : Env) (sid : Int) (s : St) :
    ∃ tr, process_evaluation env sid s = (Except.ok (), s, tr) := by
  rcases hb : peBody env sid s with ⟨res, s1, tr⟩
  have hs : s1 = s := by
    have := peBody_stateInv env sid s
    rw [hb] at this
    exact this
  subst hs
  cases res with
  | ok u =>
    exact ⟨tr, by unfold process_evaluation; rw [hb]⟩
  | error e =>
    exact ⟨tr ++ [Ev.logErr], by unfold process_evaluation; rw [hb]⟩

/-- C7 (amended): when the upstream scenario lookup returns a non-200 status
(such as 404) the handler completes without raising, the failure is logged
inside the processing step, and the indicator-upload endpoint is never
reached; more generally any exception raised inside the two processing steps
is caught and logged within those steps, so once the model load succeeds the
handler always completes without re-raising.  (An exception from the model
load itself, which runs before the guarded section, propagates out of the
handler: see the counterexample.) -/
theorem handler_swallow_semantics (env : Env) (s : St) (tid sid : Int) :
    (∀ mdl s1 trg, get_model env tid s = (Except.ok mdl, s1, trg) →
      env.scenStatus sid ≠ 200 →
      handle env tid sid s =
        (Except.ok (), s1, trg ++ [Ev.scenarioLookup sid, Ev.logErr,
          Ev.scenarioLookup sid, Ev.logErr, Ev.logInfo]))
    ∧ (∀ mdl s1 trg, get_model env tid s = (Except.ok mdl, s1, trg) →
      (handle env tid sid s).1 = Except.ok ()) := by
  constructor
  · intro mdl s1 trg hg hscen
    have hppc : process_population_criterion env sid s1 =
        (Except.ok (), s1, [Ev.scenarioLookup sid, Ev.logErr]) := by
      unfold process_population_criterion ppcBody
      simp [Pipe.bind_eq, Pipe.bind, Pipe.emit, Pipe.fail, hscen]
    have hpe : process_evaluation env sid s1 =
        (Except.ok (), s1, [Ev.scenarioLookup sid, Ev.logErr]) := by
      unfold process_evaluation peBody
      simp [Pipe.bind_eq, Pipe.bind, Pipe.emit, Pipe.fail, hscen]
    unfold handle handleGuard
    simp [Pipe.bind_eq, Pipe.bind, Pipe.emit, hg, hppc, hpe]
  · intro mdl s1 trg hg
    obtain ⟨tr1, h1⟩ := ppc_runs env sid s1
    obtain ⟨tr2, h2⟩ := pe_runs env sid s1
    unfold handle handleGuard
    simp [Pipe.bind_eq, Pipe.bind, Pipe.emit, hg, h1, h2]

/-- Modelled from the spec: section 4.3 states that the adjacency matrix, like
the two geodata inputs, is "reprojected" to the local CRS before model
construction; reprojecting a matrix is modelled as attaching the target CRS
tag (a pandas DataFrame has no geometry to transform, and no such operation
exists in the source). -/
def Mx.to_crs (c : Int) (m : Mx) : Mx :=
  { rows := m.rows, cols := m.cols, crs := some c }

/-- C8 (amended): `create_model` determines one local projected CRS estimated
from the border geometry and reprojects the two geodata inputs (region
borders and towns) to it before constructing the region model; the adjacency
matrix is handed to the constructor unchanged. -/
theorem create_model_reprojects_geodata (env : Env) (b : Gdf) (t : Frame)
    (adj : Mx) (rid : Int) (reg : Region)
    (h : create_model env b t adj rid = Except.ok reg) :
    reg.region = Gdf.to_crs (env.estimateUtm b) b ∧
    reg.towns = Frame.to_crs (env.estimateUtm b) t ∧
    reg.accessibility_matrix = adj := by
  unfold create_model at h
  dsimp only at h
  split at h
  · cases h
    exact ⟨rfl, rfl, rfl⟩
  · cases h

/-- C9: a 500 response whose JSON body's `error` field contains "reset by
peer" is the retry signal: the fetch is silently re-issued and the eventual
result of the re-issued request is what the caller gets; every response whose
status check raises does so with an error carrying the upstream status. -/
theorem api_get_retry_semantics (resp : Nat → Resp) (i fuel : Nat) :
    (checkResponseStatus (resp i) = Except.ok none →
      apiGet resp i (fuel + 1) = apiGet resp (i + 1) fuel)
    ∧ (∀ e, checkResponseStatus (resp i) = Except.error e →
      apiGet resp i (fuel + 1) = some (Except.error e) ∧
      e.statusOf = (resp i).status)
    ∧ ((resp i).status = 500 → (resp i).isJson = true →
      ∀ msg, (resp i).errField = some msg → chSub resetMarker msg = true →
      checkResponseStatus (resp i) = Except.ok none) := by
  refine ⟨?_, ?_, ?_⟩
  · intro h
    simp only [apiGet]
    rw [h]
  · intro e h
    constructor
    · simp only [apiGet]
      rw [h]
    · unfold checkResponseStatus at h
      split at h
      · simp at h
      · split at h
        · split at h
          · split at h
            · simp at h
            · cases h
              simp_all [Err.statusOf, http_exception]
          · cases h
            simp_all [Err.statusOf, http_exception]
          · cases h
            simp_all [Err.statusOf, http_exception]
        · cases h
          simp_all [Err.statusOf, http_exception]
  · intro h500 hjson msg herr hsub
    unfold checkResponseStatus
    rw [h500, hjson, herr]
    simp [hsub]

/-- A concrete region-borders layer used by the concrete scenarios. -/
def bW : Gdf := { crs := 4326, geom := 7 }

/-- A concrete cities layer with a `territory_id` column. -/
def c0W : Cities := { labels := [0, 1], tid := some [10, 11] }

/-- A concrete population frame matching the two towns. -/
def pW : Pop := { tids := [10, 11] }

/-- A fully healthy concrete environment: all collaborators succeed. -/
def envW : Env where
  baseScenario := fun r => if r = 9 then Except.error (Err.ext 9) else Except.ok 77
  regionBorders := fun _ => Except.ok bW
  tfCities := fun _ => Except.ok c0W
  scenarioPopulation := fun _ _ => Except.ok pW
  matrixFor := fun _ => Except.ok ([0, 1], [0, 1])
  fillLevels := fun f => f
  estimateUtm := fun _ => 32636
  regionInitOk := fun _ _ _ => true
  uploadInd := fun _ _ => Except.ok ()
  delLayersOk := fun _ => true
  saveLayerOk := fun _ _ => true
  regions := Except.ok [1, 2, 3]
  listCachedOk := true
  writeOk := fun _ => true
  loadOk := fun _ => true
  scenStatus := fun _ => 200
  scenProject := fun _ => some 5
  terrStatus := fun _ => 200
  evalScores := fun _ => [1]
  evalScores2 := fun _ => [1]
  indPostStatus := fun _ => 200

/-- The towns frame produced by the alignment pipeline on the concrete data:
reindexed by territory id, joined with population, original index restored. -/
def tW : Frame :=
  { crs := 4326, hasOrig := false,
    rows := [{ label := 0, orig := 0 }, { label := 1, orig := 1 }] }

/-- The sliced adjacency matrix handed to the builder on the concrete data. -/
def m2W : Mx := { rows := [0, 1], cols := [0, 1], crs := none }

/-- The region model built from the concrete data. -/
def modelW : Region :=
  { region := Gdf.to_crs 32636 bW,
    towns := Frame.to_crs 32636 tW,
    accessibility_matrix := m2W }

def stEmpty : St := { cache := [], layers := [] }

def stHit1 : St := { cache := [(1, modelW)], layers := [] }

/-- Witness for C1 at the concrete inputs: a cache miss for region 1 runs the
whole pipeline and returns the freshly cached model; a cache hit returns the
cached model with no recomputation. -/
theorem get_model_cache_semantics_witness :
    get_model envW 1 stEmpty =
      (Except.ok { region_id := 1, region_model := modelW },
       { cache := upsert stEmpty.cache 1 modelW,
         layers := [(1, LayerType.agglomerations), (1, LayerType.cities)] },
       [Ev.fetchBase 1, Ev.fetchBorders 1, Ev.fetchCities 1,
        Ev.fetchPop 77 [10, 11], Ev.fetchMatrix 1, Ev.cacheWrite 1,
        Ev.uploadInd 1 77, Ev.delLayers 1,
        Ev.saveLayer 1 LayerType.agglomerations, Ev.saveLayer 1 LayerType.cities,
        Ev.loadModel 1]) ∧
    get_model envW 1 stHit1 =
      (Except.ok { region_id := 1, region_model := modelW }, stHit1,
       [Ev.loadModel 1]) :=
  ⟨((get_model_cache_semantics envW stEmpty 1 77 bW c0W pW [0, 1] [0, 1] tW m2W
      (by decide) rfl rfl rfl rfl rfl rfl rfl rfl rfl rfl rfl rfl rfl rfl).2
      rfl).1,
   (get_model_cache_semantics envW stHit1 1 77 bW c0W pW [0, 1] [0, 1] tW m2W
      (by decide) rfl rfl rfl rfl rfl rfl rfl rfl rfl rfl rfl rfl rfl rfl).1
      modelW rfl⟩

def stPrev : St :=
  { cache := [], layers := [(1, LayerType.cities), (2, LayerType.agglomerations)] }

/-- Witness for C3: on a store holding an old generation for region 1 and a
layer of region 2, a successful recomputation of region 1 leaves exactly one
fresh generation for region 1 and region 2's layer untouched. -/
theorem calc_replaces_layer_generation_witness :
    (calculate_model envW 1 stPrev).1 = Except.ok ()
    ∧ List.Sublist
        [Ev.delLayers 1, Ev.saveLayer 1 LayerType.agglomerations,
         Ev.saveLayer 1 LayerType.cities]
        (calculate_model envW 1 stPrev).2.2
    ∧ ((calculate_model envW 1 stPrev).2.1).layers.filter (fun q => q.1 = 1) =
        [(1, LayerType.agglomerations), (1, LayerType.cities)]
    ∧ ((calculate_model envW 1 stPrev).2.1).layers.filter (fun q => q.1 ≠ 1) =
        stPrev.layers.filter (fun q => q.1 ≠ 1) :=
  calc_replaces_layer_generation envW stPrev 1 77 bW c0W pW [0, 1] [0, 1] tW m2W
    (by decide) rfl rfl rfl rfl rfl rfl rfl rfl rfl rfl rfl rfl rfl

def envUpFail : Env :=
  { envW with uploadInd := fun _ _ => Except.error (Err.ext 42) }

/-- Witness for C10: with the indicator upload failing after the cache write,
the run raises but the cache already holds the new model and `get_model`
serves it without recomputation. -/
theorem calc_cache_survives_publish_failure_witness :
    isErr (calculate_model envUpFail 1 stEmpty).1 = true
    ∧ lookupCache ((calculate_model envUpFail 1 stEmpty).2.1).cache 1 = some modelW
    ∧ ((calculate_model envUpFail 1 stEmpty).2.1).cache.any (fun q => q.1 == 1) = true
    ∧ get_model envUpFail 1 ((calculate_model envUpFail 1 stEmpty).2.1) =
        (Except.ok { region_id := 1, region_model := modelW },
         (calculate_model envUpFail 1 stEmpty).2.1, [Ev.loadModel 1]) :=
  calc_cache_survives_publish_failure envUpFail stEmpty 1 77 bW c0W pW [0, 1]
    [0, 1] tW m2W (by decide) rfl rfl rfl rfl rfl rfl rfl rfl rfl rfl
    (Or.inl ⟨Err.ext 42, rfl⟩)

def envMiss : Env := { envW with matrixFor := fun _ => Except.ok ([0], [0]) }

def mx0 : Mx := { rows := [0], cols := [0], crs := none }

def trAlignW : List Ev :=
  [Ev.fetchBase 1, Ev.fetchBorders 1, Ev.fetchCities 1, Ev.fetchPop 77 [10, 11],
   Ev.fetchMatrix 1]

/-- Witness for C2: on the concrete data the sliced matrix is indexed exactly
by the final town index, and with a fetched matrix missing town 1 the
pipeline fails with a key error naming it. -/
theorem matrix_alignment_invariant_witness :
    (m2W.rows = townsIndex tW ∧ m2W.cols = townsIndex tW) ∧
    (1 ∈ (townsIndex tW).filter
        (fun j => !(mx0.rows.contains j && mx0.cols.contains j)) ∧
     builderInputs envMiss 1 stEmpty =
       (Except.error (Err.keyError ((townsIndex tW).filter
         (fun j => !(mx0.rows.contains j && mx0.cols.contains j)))), stEmpty,
        trAlignW)) :=
  ⟨(matrix_alignment_invariant envW 1 stEmpty).1 77 bW tW m2W stEmpty trAlignW rfl,
   (matrix_alignment_invariant envMiss 1 stEmpty).2 77 bW tW mx0 stEmpty trAlignW 1
     rfl (by decide) (by decide)⟩

def envNoWrite : Env := { envW with writeOk := fun _ => false }

def envNoLoad : Env := { envW with loadOk := fun _ => false }

def st5 : St := { cache := [(5, modelW)], layers := [] }

/-- Witness for C4 (amended): the write failure carries the available ids, the
two read failures (missing file, corrupt file) carry the file path only. -/
theorem cache_persistence_error_payload_witness :
    cache_model_to_pickle envNoWrite modelW 6 st5 =
      (Except.error (Err.http 500
        ("Failed to cache file to pickle " ++ toString (6 : Int))
        { availableFiles := some [5], filepath := none }), st5, [Ev.logErr]) ∧
    load_cached_model envW 6 st5 =
      (Except.error (Err.http 500
        ("Failed to load file from pickle " ++ toString (6 : Int))
        { availableFiles := none, filepath := some (toString (6 : Int) ++ ".pkl") }),
       st5, []) ∧
    load_cached_model envNoLoad 5 st5 =
      (Except.error (Err.http 500
        ("Failed to load file from pickle " ++ toString (5 : Int))
        { availableFiles := none, filepath := some (toString (5 : Int) ++ ".pkl") }),
       st5, []) :=
  ⟨(cache_persistence_error_payload envNoWrite st5 6 modelW).1 rfl rfl,
   (cache_persistence_error_payload envW st5 6 modelW).2.1 rfl,
   (cache_persistence_error_payload envNoLoad st5 5 modelW).2.2 modelW rfl rfl⟩

/-- Counterexample for C4 as stated: a cache read failure for region 5 raises
an error that carries no list of available ids, although the cache holds
exactly region 5. -/
theorem cache_error_payload_counterexample :
    (load_cached_model envNoLoad 5 st5).1 =
      Except.error (Err.http 500
        ("Failed to load file from pickle " ++ toString (5 : Int))
        { availableFiles := none, filepath := some (toString (5 : Int) ++ ".pkl") })
    ∧ st5.cache.map (fun p => p.1) = [5] :=
  ⟨rfl, rfl⟩

def st2W : St := { cache := [(2, modelW)], layers := [] }

def envRegFail : Env := { envW with regions := Except.error (Err.ext 5) }

/-- Witness for C5: with all regions 1,2,3 and region 2 cached, exactly 1 and
3 are recomputed and region 2's entry is untouched; and a failing region
listing abandons the warmup with nothing recomputed. -/
theorem startup_warmup_semantics_witness :
    ((load_and_cache_all_models_on_startup envW st2W).1 = Except.ok () ∧
     Ev.fetchBase 1 ∈ (load_and_cache_all_models_on_startup envW st2W).2.2 ∧
     Ev.fetchBase 3 ∈ (load_and_cache_all_models_on_startup envW st2W).2.2 ∧
     (load_and_cache_all_models_on_startup envW st2W).2.2 =
       Ev.fetchRegions :: (forRegions envW [1, 3] st2W).2.2 ∧
     lookupCache ((load_and_cache_all_models_on_startup envW st2W).2.1).cache 2 =
       some modelW) ∧
    load_and_cache_all_models_on_startup envRegFail st2W =
      (Except.ok (), st2W, [Ev.fetchRegions, Ev.logErr]) :=
  ⟨(startup_warmup_semantics envW st2W).1 modelW rfl rfl rfl,
   (startup_warmup_semantics envRegFail st2W).2.1 (Err.ext 5) rfl⟩

def envFail1 : Env :=
  { envW with baseScenario := fun r =>
      if r = 1 then Except.error (Err.ext 9) else Except.ok 77 }

/-- Witness for C6: with region 1's pipeline failing, the batch call still
completes and attempts all of regions 1, 2 and 3. -/
theorem bulk_load_isolates_failures_witness :
    (load_and_cache_all_models envFail1 stEmpty).1 = Except.ok () ∧
    Ev.fetchBase 1 ∈ (load_and_cache_all_models envFail1 stEmpty).2.2 ∧
    Ev.fetchBase 2 ∈ (load_and_cache_all_models envFail1 stEmpty).2.2 ∧
    Ev.fetchBase 3 ∈ (load_and_cache_all_models envFail1 stEmpty).2.2 :=
  ⟨(bulk_load_isolates_failures envFail1 stEmpty [1, 2, 3] rfl).1,
   (bulk_load_isolates_failures envFail1 stEmpty [1, 2, 3] rfl).2 1 (by decide),
   (bulk_load_isolates_failures envFail1 stEmpty [1, 2, 3] rfl).2 2 (by decide),
   (bulk_load_isolates_failures envFail1 stEmpty [1, 2, 3] rfl).2 3 (by decide)⟩

def env404 : Env := { envW with scenStatus := fun _ => 404 }

def stHit42 : St := { cache := [(42, modelW)], layers := [] }

def envLoadCrash : Env :=
  { envW with baseScenario := fun r =>
      if r = 42 then Except.error (Err.ext 9) else Except.ok 77 }

/-- Witness for C7 (amended): for the event on territory 42 with base
scenario 7 whose upstream scenario lookup returns 404, the handler completes
without raising, the failure is logged, and no indicator upload happens. -/
theorem handler_swallow_semantics_witness :
    handle env404 42 7 stHit42 =
      (Except.ok (), stHit42, [Ev.loadModel 42] ++ [Ev.scenarioLookup 7,
        Ev.logErr, Ev.scenarioLookup 7, Ev.logErr, Ev.logInfo]) ∧
    (handle env404 42 7 stHit42).1 = Except.ok () :=
  ⟨(handler_swallow_semantics env404 stHit42 42 7).1
      { region_id := 42, region_model := modelW } stHit42 [Ev.loadModel 42] rfl
      (by decide),
   (handler_swallow_semantics env404 stHit42 42 7).2
      { region_id := 42, region_model := modelW } stHit42 [Ev.loadModel 42] rfl⟩

/-- Counterexample for C7 as stated: an exception raised while loading the
model for the event's territory (which happens before the guarded section)
propagates out of the handler instead of being logged and swallowed. -/
theorem handler_model_load_counterexample :
    handle envLoadCrash 42 7 stEmpty =
      (Except.error (Err.ext 9), stEmpty, [Ev.fetchBase 42]) :=
  rfl

/-- Counterexample for C8 as stated: the model constructor receives the
adjacency matrix verbatim; no reprojection to the local CRS is applied to it
(its CRS tag stays empty, unlike the reprojected borders and towns). -/
theorem create_model_matrix_counterexample :
    create_model envW bW tW m2W 1 = Except.ok modelW ∧
    modelW.accessibility_matrix = m2W ∧
    m2W ≠ Mx.to_crs (envW.estimateUtm bW) m2W :=
  ⟨rfl, rfl, by decide⟩

/-- Witness for C8 (amended): on the concrete inputs the built model carries
the reprojected borders and towns and the unchanged matrix. -/
theorem create_model_reprojects_geodata_witness :
    modelW.region = Gdf.to_crs (envW.estimateUtm bW) bW ∧
    modelW.towns = Frame.to_crs (envW.estimateUtm bW) tW ∧
    modelW.accessibility_matrix = m2W :=
  create_model_reprojects_geodata envW bW tW m2W 1 modelW rfl

def respReset : Resp :=
  { status := 500, isJson := true,
    errField := some ("Connection reset by peer".toList), payload := 0 }

def resp404 : Resp :=
  { status := 404, isJson := true, errField := none, payload := 0 }

def respW : Nat → Resp := fun n => if n = 0 then respReset else resp404

def e404 : Err :=
  Err.http 404 "Couldn't get data from API" { availableFiles := none, filepath := none }

/-- Witness for C9: a reset-by-peer 500 response is silently re-issued, and
the eventual 404 raises an error carrying the upstream 404 status. -/
theorem api_get_retry_semantics_witness :
    apiGet respW 0 (2 + 1) = apiGet respW 1 2 ∧
    apiGet respW 1 (1 + 1) = some (Except.error e404) ∧
    e404.statusOf = (respW 1).status ∧
    checkResponseStatus (respW 0) = Except.ok none :=
  ⟨(api_get_retry_semantics respW 0 2).1 rfl,
   ((api_get_retry_semantics respW 1 1).2.1 e404 rfl).1,
   ((api_get_retry_semantics respW 1 1).2.1 e404 rfl).2,
   (api_get_retry_semantics respW 0 0).2.2 rfl rfl
     ("Connection reset by peer".toList) rfl (by decide)⟩
